import Mathlib

/-!
Verification of the KristWeb2 excerpt: the `AddressButtonRow` component
(src/pages/addresses/AddressButtonRow.tsx) and the `TransactionsTable`
component (transactions table file).  Each definition below is a shallow
embedding of the corresponding TypeScript code; theorems settle the spec
claims about them.
-/

namespace KristWeb

/-- JS truthiness of an optional string: `undefined` and the empty string
are falsy, every other string is truthy. -/
def jsTruthy : Option String → Bool
  | none => false
  | some s => s != ""

/-! ## AddressButtonRow -/

/-- Wallet record; only the `address` field is read by this slice. -/
structure Wallet where
  address : String
deriving DecidableEq, Repr

/-- Address record passed to AddressButtonRow; only `address` is read
by the wallet match. -/
structure KristAddressWithNames where
  address : String
deriving DecidableEq, Repr

/-- The predicate of the wallet lookup: `w => w.address === address.address`
(exact string equality). -/
def walletMatches (w : Wallet) (addr : String) : Bool :=
  w.address == addr

/-- The component body: `Object.values(wallets).find(w => w.address === address.address)`. -/
def myWallet (wallets : List Wallet) (address : KristAddressWithNames) : Option Wallet :=
  wallets.find? (fun w => walletMatches w address.address)

/-- The first (send/transfer) button rendered by AddressButtonRow. -/
inductive SendButton
  | sendKrist
  | transferKrist
deriving DecidableEq, Repr

/-- The second (add friend / edit wallet) element rendered by AddressButtonRow. -/
inductive FriendButton
  | addFriend
  | editWallet (wallet : Wallet)
deriving DecidableEq, Repr

/-- Rendering of AddressButtonRow: the two conditional branches in the JSX,
both keyed on whether `myWallet` found a match. -/
def AddressButtonRow (wallets : List Wallet) (address : KristAddressWithNames) :
    SendButton × FriendButton :=
  match myWallet wallets address with
  | some w => (.transferKrist, .editWallet w)
  | none => (.sendKrist, .addFriend)

/-! ## TransactionsTable: listing type map -/

/-- Lookup type enum; the three values referenced by LISTING_TYPE_MAP in the
table source (the enum itself is declared in krist/api/lookup). -/
inductive LookupTransactionType
  | transactions
  | nameHistory
  | nameTransactions
deriving DecidableEq, Repr

/-- Modelled from the spec: the listing-type enum of TransactionsPage is not
in this slice; the spec glossary lists its five view modes (all, sent,
received, name history, name transactions), numbered 0 to 4 by the keys of
LISTING_TYPE_MAP in the table source. -/
inductive ListingType
  | all
  | sent
  | received
  | nameHistory
  | nameTransactions
deriving DecidableEq, Repr

/-- Numeric encoding of the listing types, matching the keys 0 to 4 of
LISTING_TYPE_MAP in the table source. -/
def ListingType.code : ListingType → Nat
  | .all => 0
  | .sent => 1
  | .received => 2
  | .nameHistory => 3
  | .nameTransactions => 4

/-- The LISTING_TYPE_MAP record: keys 0,1,2 map to TRANSACTIONS, key 3 to
NAME_HISTORY, key 4 to NAME_TRANSACTIONS. -/
def LISTING_TYPE_MAP : ListingType → LookupTransactionType
  | .all => .transactions
  | .sent => .transactions
  | .received => .transactions
  | .nameHistory => .nameHistory
  | .nameTransactions => .nameTransactions

/-! ## TransactionsTable: data model -/

/-- Transaction record with the fields the table reads. -/
structure KristTransaction where
  id : Nat
  type : String
  «from» : Option String
  «to» : Option String
  value : Nat
  name : Option String
  metadata : Option String
  time : String
deriving DecidableEq, Repr

/-- Response of lookupTransactions: transactions plus count/total metadata. -/
structure LookupTransactionsResponse where
  transactions : List KristTransaction
  count : Nat
  total : Nat
deriving DecidableEq, Repr

/-- The options state of the table: pagination and sort. -/
structure LookupTransactionsOptions where
  limit : Nat
  offset : Nat
  orderBy : String
  order : String
deriving DecidableEq, Repr

/-- The options object literal actually passed to lookupTransactions:
`{...options, includeMined, type: LISTING_TYPE_MAP[listingType]}`. -/
structure SentLookupOptions where
  limit : Nat
  offset : Nat
  orderBy : String
  order : String
  includeMined : Option Bool
  type : LookupTransactionType
deriving DecidableEq, Repr

/-- The full argument pair of a lookupTransactions call. -/
structure FetchCall where
  targets : Option (List String)
  options : SentLookupOptions
deriving DecidableEq, Repr

/-- The call built inside the effect:
`lookupTransactions(name ? [name] : addresses, {...options, includeMined, type: LISTING_TYPE_MAP[listingType]})`.
The ternary condition is JS truthiness of `name`, so the empty string falls
through to `addresses`. -/
def buildLookupCall (listingType : ListingType) (addresses : Option (List String))
    (name : Option String) (includeMined : Option Bool)
    (options : LookupTransactionsOptions) : FetchCall :=
  { targets :=
      match name with
      | some n => if n != "" then some [n] else addresses
      | none => addresses
    options :=
      { limit := options.limit
        offset := options.offset
        orderBy := options.orderBy
        order := options.order
        includeMined := includeMined
        type := LISTING_TYPE_MAP listingType } }

/-! ## TransactionsTable: fetch lifecycle -/

/-- Rejection reason of a failed lookup. -/
abbrev ApiError := String

/-- The two state cells touched by the fetch effect. -/
structure TableState where
  loading : Bool
  res : Option LookupTransactionsResponse
deriving DecidableEq, Repr

/-- How the fetch promise settles. -/
inductive FetchOutcome
  | resolves (r : LookupTransactionsResponse)
  | rejects (e : ApiError)
deriving DecidableEq, Repr

/-- `setLoading(true)` at the start of the effect. -/
def startFetch (s : TableState) : TableState :=
  { s with loading := true }

/-- `.then(setRes)`: on fulfillment store the response, on rejection pass
the rejection through. -/
def thenSetRes : FetchOutcome → TableState → TableState
  | .resolves r, s => { s with res := some r }
  | .rejects _, s => s

/-- `.catch(setError)`: the list of invocations of the error sink.  When the
optional setError prop is absent the rejection is simply not consumed. -/
def catchSetError (hasSetError : Bool) : FetchOutcome → List ApiError
  | .resolves _ => []
  | .rejects e => if hasSetError then [e] else []

/-- `.finally(() => setLoading(false))`: runs however the promise settled. -/
def finallySetLoading (s : TableState) : TableState :=
  { s with loading := false }

/-- One complete fetch round: set loading, settle, run the handler chain.
Returns the final state and the trace of error-sink invocations. -/
def runFetch (hasSetError : Bool) (s : TableState) (o : FetchOutcome) :
    TableState × List ApiError :=
  (finallySetLoading (thenSetRes o (startFetch s)), catchSetError hasSetError o)

/-! ## TransactionsTable: initial state and table props -/

/-- `useState(true)` for loading. -/
def initialLoading : Bool := true

/-- `useState<LookupTransactionsResponse>()` starts absent. -/
def initialRes : Option LookupTransactionsResponse := none

/-- The initial options state literal in the source. -/
def initialOptions : LookupTransactionsOptions :=
  { limit := 20
    offset := 0
    orderBy := "time"
    order := "DESC" }

/-- `dataSource={res?.transactions || []}`: an absent response yields the
empty list (a present response's transactions array is truthy even when
empty, so it is used as-is). -/
def dataSource (res : Option LookupTransactionsResponse) : List KristTransaction :=
  match res with
  | some r => r.transactions
  | none => []

/-- Ant Design sort orders. -/
inductive SortOrder
  | ascend
  | descend
deriving DecidableEq, Repr

/-- The column fields the claims are about. -/
structure Column where
  key : String
  sorter : Bool
  defaultSortOrder : Option SortOrder
deriving DecidableEq, Repr

/-- The columns array of the table, in source order. -/
def transactionsColumns : List Column :=
  [ { key := "id", sorter := false, defaultSortOrder := none }
  , { key := "type", sorter := false, defaultSortOrder := none }
  , { key := "from", sorter := true, defaultSortOrder := none }
  , { key := "to", sorter := true, defaultSortOrder := none }
  , { key := "value", sorter := true, defaultSortOrder := none }
  , { key := "name", sorter := true, defaultSortOrder := none }
  , { key := "metadata", sorter := false, defaultSortOrder := none }
  , { key := "time", sorter := true, defaultSortOrder := some .descend } ]

/-! ## TransactionsTable: cell renderers -/

/-- Props of a rendered ContextualAddress in the From/To cells. -/
structure ContextualAddressProps where
  address : String
  metadata : Option String
deriving DecidableEq, Repr

/-- The From column renderer:
`(from, tx) => from && tx.type !== "mined" && (<ContextualAddress ... />)`.
`none` models the cell rendering nothing (a falsy JSX value). -/
def renderFrom (tx : KristTransaction) : Option ContextualAddressProps :=
  match tx.«from» with
  | some f =>
    if f != "" && tx.type != "mined" then
      some { address := f, metadata := tx.metadata }
    else none
  | none => none

/-- The To column renderer:
`(to, tx) => to && tx.type !== "name_purchase" && tx.type !== "name_a_record" && (<ContextualAddress ... />)`. -/
def renderTo (tx : KristTransaction) : Option ContextualAddressProps :=
  match tx.«to» with
  | some a =>
    if a != "" && tx.type != "name_purchase" && tx.type != "name_a_record" then
      some { address := a, metadata := tx.metadata }
    else none
  | none => none

/-- Modelled from the spec: TYPES_SHOW_VALUE is declared in
components/transactions/TransactionType, outside this slice; the spec
describes it as the allow-list of value-bearing transaction kinds
(ordinary transfers, mined rewards). -/
def TYPES_SHOW_VALUE : List String := ["transfer", "mined"]

/-- Props of a rendered KristValue in the Value cell. -/
structure KristValueProps where
  value : Nat
deriving DecidableEq, Repr

/-- The Value column renderer:
`(value, tx) => TYPES_SHOW_VALUE.includes(tx.type) && (<KristValue value={value} />)`. -/
def renderValue (tx : KristTransaction) : Option KristValueProps :=
  if TYPES_SHOW_VALUE.contains tx.type then
    some { value := tx.value }
  else none

/-! ## Concrete transactions used in witnesses -/

/-- A mined-reward transaction. -/
def txMined : KristTransaction :=
  { id := 1, type := "mined", «from» := some "kaaa00000", «to» := some "kbbb00000"
  , value := 25, name := none, metadata := none, time := "2021-01-01" }

/-- A name-purchase transaction. -/
def txNamePurchase : KristTransaction :=
  { id := 2, type := "name_purchase", «from» := some "kaaa00000", «to» := some "kbbb00000"
  , value := 500, name := some "example", metadata := none, time := "2021-01-02" }

/-- An ordinary transfer transaction. -/
def txTransfer : KristTransaction :=
  { id := 3, type := "transfer", «from» := some "kaaa00000", «to» := some "kbbb00000"
  , value := 10, name := none, metadata := none, time := "2021-01-03" }

/-- A transfer whose `from` field is present but equal to the empty string. -/
def txEmptyFrom : KristTransaction :=
  { id := 4, type := "transfer", «from» := some "", «to» := some "kbbb00000"
  , value := 10, name := none, metadata := none, time := "2021-01-04" }

/-! ## Theorems for the claims -/

/-- C1: a fetch that rejects, with the error sink supplied, invokes the sink
exactly once with the rejection reason, ends with `loading = false`, and
leaves `res` at its value from before the fetch. -/
theorem fetch_reject_sink_once_loading_false_res_kept
    (s : TableState) (e : ApiError) :
    runFetch true s (.rejects e) = ({ loading := false, res := s.res }, [e]) := by
  cases s
  rfl

/-- C2: if some wallet address equals the record address, AddressButtonRow
renders the transfer button and the edit-wallet trigger; if no wallet
matches, it renders the send button and the add-friend button. -/
theorem address_button_row_cases (wallets : List Wallet) (a : KristAddressWithNames) :
    ((∃ w ∈ wallets, w.address = a.address) →
      ∃ w, AddressButtonRow wallets a = (.transferKrist, .editWallet w)) ∧
    ((∀ w ∈ wallets, w.address ≠ a.address) →
      AddressButtonRow wallets a = (.sendKrist, .addFriend)) := by
  constructor
  · rintro ⟨w, hw, he⟩
    have hsome : (myWallet wallets a).isSome := by
      rw [myWallet, List.find?_isSome]
      exact ⟨w, hw, by simp [walletMatches, he]⟩
    rcases hopt : myWallet wallets a with _ | w2
    · rw [hopt] at hsome
      simp at hsome
    · exact ⟨w2, by simp only [AddressButtonRow, hopt]⟩
  · intro hnone
    have hfind : myWallet wallets a = none := by
      rw [myWallet, List.find?_eq_none]
      intro w hw
      simp only [walletMatches, beq_eq_false_iff_ne, ne_eq, Bool.not_eq_true]
      exact hnone w hw
    simp only [AddressButtonRow, hfind]

/-- Witness for C2 at a concrete wallet list and address. -/
theorem address_button_row_cases_witness :
    (∃ w, AddressButtonRow [{ address := "kaaa00000" }] { address := "kaaa00000" }
        = (.transferKrist, .editWallet w)) ∧
    AddressButtonRow [] { address := "kaaa00000" } = (.sendKrist, .addFriend) :=
  ⟨(address_button_row_cases [{ address := "kaaa00000" }] { address := "kaaa00000" }).1
      ⟨{ address := "kaaa00000" }, by simp⟩,
   (address_button_row_cases [] { address := "kaaa00000" }).2 (by simp)⟩

/-- C3: the three generic listing variants (codes 0, 1, 2) all map to the
generic transactions lookup type; code 3 maps to name history and code 4 to
name transactions. -/
theorem listing_type_map_spec :
    LISTING_TYPE_MAP .all = .transactions ∧
    LISTING_TYPE_MAP .sent = .transactions ∧
    LISTING_TYPE_MAP .received = .transactions ∧
    LISTING_TYPE_MAP .nameHistory = .nameHistory ∧
    LISTING_TYPE_MAP .nameTransactions = .nameTransactions ∧
    ListingType.code .all = 0 ∧
    ListingType.code .sent = 1 ∧
    ListingType.code .received = 2 ∧
    ListingType.code .nameHistory = 3 ∧
    ListingType.code .nameTransactions = 4 :=
  ⟨rfl, rfl, rfl, rfl, rfl, rfl, rfl, rfl, rfl, rfl⟩

/-- C4 counterexample: the claim as stated fails, because presence of the
`from` field is not enough to render the cell: a non-mined transaction whose
`from` field is present but empty renders nothing (JS truthiness). -/
theorem from_to_cells_claim_counterexample :
    ¬ (∀ tx : KristTransaction,
        (tx.type = "mined" → renderFrom tx = none) ∧
        (tx.type = "name_purchase" ∨ tx.type = "name_a_record" → renderTo tx = none) ∧
        (tx.type ≠ "mined" → tx.«from».isSome = true → (renderFrom tx).isSome = true) ∧
        (tx.type ≠ "name_purchase" → tx.type ≠ "name_a_record" →
          tx.«to».isSome = true → (renderTo tx).isSome = true)) := by
  intro h
  exact absurd ((h txEmptyFrom).2.2.1 (by decide) rfl) (by decide)

/-- C4 amended: the From cell renders nothing for mined transactions and the
To cell renders nothing for name-purchase and name-A-record transactions; for
other types the cell renders an address reference exactly when the
corresponding field is present and non-empty. -/
theorem from_to_cells_render (tx : KristTransaction) :
    (tx.type = "mined" → renderFrom tx = none) ∧
    (tx.type = "name_purchase" ∨ tx.type = "name_a_record" → renderTo tx = none) ∧
    (tx.type ≠ "mined" → ∀ f, tx.«from» = some f → f ≠ "" →
      renderFrom tx = some { address := f, metadata := tx.metadata }) ∧
    (tx.type ≠ "name_purchase" → tx.type ≠ "name_a_record" →
      ∀ a, tx.«to» = some a → a ≠ "" →
      renderTo tx = some { address := a, metadata := tx.metadata }) := by
  refine ⟨?_, ?_, ?_, ?_⟩
  · intro hm
    cases hf : tx.«from» <;> simp [renderFrom, hf, hm]
  · intro hm
    cases ht : tx.«to» <;>
      rcases hm with hm | hm <;> simp [renderTo, ht, hm]
  · intro hm f hf hne
    simp [renderFrom, hf, hne, hm]
  · intro h1 h2 a ht hne
    simp [renderTo, ht, hne, h1, h2]

/-- Witness for C4 at concrete transactions of each relevant type. -/
theorem from_to_cells_render_witness :
    renderFrom txMined = none ∧
    renderTo txNamePurchase = none ∧
    renderFrom txTransfer = some { address := "kaaa00000", metadata := none } ∧
    renderTo txTransfer = some { address := "kbbb00000", metadata := none } :=
  ⟨(from_to_cells_render txMined).1 rfl,
   (from_to_cells_render txNamePurchase).2.1 (Or.inl rfl),
   (from_to_cells_render txTransfer).2.2.1 (by decide) "kaaa00000" rfl (by decide),
   (from_to_cells_render txTransfer).2.2.2 (by decide) (by decide) "kbbb00000" rfl (by decide)⟩

/-- C5: the Value cell renders a value exactly when the transaction type is
in the TYPES_SHOW_VALUE allow-list. -/
theorem value_cell_iff_allowlist (tx : KristTransaction) :
    (renderValue tx).isSome = true ↔ tx.type ∈ TYPES_SHOW_VALUE := by
  by_cases h : tx.type ∈ TYPES_SHOW_VALUE <;>
    simp [renderValue, List.contains_eq_any_beq, List.any_eq_true, h]

/-- C6: on first render, loading is true, the data sequence is empty, the
lookup options are limit 20, offset 0, ordered by time descending, and the
only column with a default sort order is the time column, descending. -/
theorem initial_table_state :
    initialLoading = true ∧
    dataSource initialRes = [] ∧
    initialOptions = { limit := 20, offset := 0, orderBy := "time", order := "DESC" } ∧
    transactionsColumns.filter (fun c => c.defaultSortOrder.isSome) =
      [{ key := "time", sorter := true, defaultSortOrder := some .descend }] :=
  ⟨rfl, rfl, rfl, rfl⟩

/-- C7 counterexample: the claim as stated fails, because a present but
empty name prop does not make the targets equal the single-element name
list; the call falls back to the addresses prop. -/
theorem lookup_call_name_counterexample :
    ¬ (∀ (lt : ListingType) (addresses : Option (List String)) (n : String)
         (im : Option Bool) (opts : LookupTransactionsOptions),
        (buildLookupCall lt addresses (some n) im opts).targets = some [n]) := by
  intro h
  exact absurd (h .all (some ["kfoo00000"]) "" none initialOptions) (by decide)

/-- C7 amended: targets are [name] when the name prop is present and
non-empty, and otherwise the addresses prop; the options passed carry over
the pagination/sort options and include includeMined and the mapped type. -/
theorem lookup_call_targets_and_options (lt : ListingType) (addresses : Option (List String))
    (name : Option String) (im : Option Bool) (opts : LookupTransactionsOptions) :
    (∀ n, name = some n → n ≠ "" →
      (buildLookupCall lt addresses name im opts).targets = some [n]) ∧
    (name = none ∨ name = some "" →
      (buildLookupCall lt addresses name im opts).targets = addresses) ∧
    (buildLookupCall lt addresses name im opts).options =
      { limit := opts.limit, offset := opts.offset, orderBy := opts.orderBy,
        order := opts.order, includeMined := im, type := LISTING_TYPE_MAP lt } := by
  refine ⟨?_, ?_, rfl⟩
  · intro n hn hne
    simp [buildLookupCall, hn, hne]
  · rintro (hn | hn) <;> simp [buildLookupCall, hn]

/-- Witness for C7 at concrete props. -/
theorem lookup_call_targets_and_options_witness :
    (buildLookupCall .sent (some ["kfoo00000"]) (some "myname") (some true)
      initialOptions).targets = some ["myname"] ∧
    (buildLookupCall .sent (some ["kfoo00000"]) none (some true)
      initialOptions).targets = some ["kfoo00000"] ∧
    (buildLookupCall .sent (some ["kfoo00000"]) (some "myname") (some true)
      initialOptions).options =
      { limit := 20, offset := 0, orderBy := "time", order := "DESC"
      , includeMined := some true, type := .transactions } :=
  ⟨(lookup_call_targets_and_options .sent (some ["kfoo00000"]) (some "myname") (some true)
      initialOptions).1 "myname" rfl (by decide),
   (lookup_call_targets_and_options .sent (some ["kfoo00000"]) none (some true)
      initialOptions).2.1 (Or.inl rfl),
   (lookup_call_targets_and_options .sent (some ["kfoo00000"]) (some "myname") (some true)
      initialOptions).2.2⟩

/-- C8: the wallet match of AddressButtonRow holds exactly when the two
strings are equal; strings differing only in letter case or whitespace do
not match. -/
theorem wallet_match_exact :
    (∀ (w : Wallet) (a : String), walletMatches w a = true ↔ w.address = a) ∧
    walletMatches { address := "kABC1230" } "kabc1230" = false ∧
    walletMatches { address := "kabc1230 " } "kabc1230" = false := by
  refine ⟨fun w a => ?_, by decide, by decide⟩
  simp [walletMatches]

/-- C9: an empty-string name prop is not passed as the singleton target
list; the targets fall back to the addresses prop (absent when addresses is
also absent). -/
theorem empty_name_falls_back_to_addresses (lt : ListingType)
    (addresses : Option (List String)) (im : Option Bool)
    (opts : LookupTransactionsOptions) :
    (buildLookupCall lt addresses (some "") im opts).targets = addresses := by
  simp [buildLookupCall]

/-- C10: whether or not the setError prop was supplied, and however the
fetch settles, the finally handler leaves loading false. -/
theorem fetch_settle_clears_loading (hasSetError : Bool) (s : TableState)
    (o : FetchOutcome) :
    (runFetch hasSetError s o).1.loading = false := by
  cases o <;> rfl

end KristWeb
